/-
Verification of the Travel-planner repository's Trip-Data Aggregation &
Planning Orchestration subsystem against its natural-language specification.

The Python sources (`agent.py`, `database.py`, `app.py`) are shallowly
embedded below: pure Lean functions model the string processing, the
SQL-backed query layer (`TravelDatabase`), the aggregation tool
(`TravelAgent._search_all_data`), the retry-wrapped orchestration entry
point (`TravelAgent.plan_trip`) and the route advisor
(`get_alternative_routes`).  Machine reals (Python floats / SQL DECIMAL)
are modelled as `Rat`; database rows are in-memory lists; exceptions are
`Except`.
-/
import Mathlib

namespace Travel

/-! ### Models of the Python string primitives used by the sources -/

/-- Model of Python `str.split(sep)` for a one-character separator, on a
character list: splits at every separator occurrence and keeps empty
fields, so the result always has (number of separators + 1) elements. -/
def splitChars (sep : Char) : List Char → List Char → List (List Char)
  | acc, [] => [acc.reverse]
  | acc, c :: cs =>
    if c = sep then acc.reverse :: splitChars sep [] cs
    else splitChars sep (c :: acc) cs

/-- Python `s.split(sep)` for a one-character separator. -/
def pysplit (sep : Char) (s : String) : List String :=
  (splitChars sep [] s.data).map (fun cs => String.mk cs)

/-- Whitespace characters removed by Python `str.strip()` (the ASCII ones
that can occur in this application's inputs). -/
def pyIsSpace (c : Char) : Bool :=
  (c = ' ') || (c = '\t') || (c = '\n') || (c = '\r')

/-- Python `str.strip()`. -/
def pystrip (s : String) : String :=
  String.mk (((s.data.dropWhile pyIsSpace).reverse.dropWhile pyIsSpace).reverse)

/-- ASCII lower-casing of one character (the city/tier strings handled by
the program are ASCII, where Python `str.lower()` agrees with this). -/
def asciiLower (c : Char) : Char :=
  if 65 ≤ c.toNat && c.toNat ≤ 90 then Char.ofNat (c.toNat + 32) else c

/-- ASCII upper-casing of one character. -/
def asciiUpper (c : Char) : Char :=
  if 97 ≤ c.toNat && c.toNat ≤ 122 then Char.ofNat (c.toNat - 32) else c

/-- Python `str.lower()` (ASCII fragment). -/
def pylower (s : String) : String := String.mk (s.data.map asciiLower)

/-- ASCII letter test; Python `str.title()` capitalizes a cased character
exactly when the previous character is uncased. -/
def isAsciiAlpha (c : Char) : Bool :=
  (65 ≤ c.toNat && c.toNat ≤ 90) || (97 ≤ c.toNat && c.toNat ≤ 122)

/-- Worker for `pytitle`: the boolean records whether the previous
character was cased. -/
def titleChars : Bool → List Char → List Char
  | _, [] => []
  | prev, c :: cs =>
    (if isAsciiAlpha c then (if prev then asciiLower c else asciiUpper c) else c)
      :: titleChars (isAsciiAlpha c) cs

/-- Python `str.title()` (ASCII fragment). -/
def pytitle (s : String) : String := String.mk (titleChars false s.data)

/-- Python slice `s[:n]`. -/
def pyslice (n : Nat) (s : String) : String := String.mk (s.data.take n)

/-! ### Number rendering used by the report formatter

`_search_all_data` renders prices with Python format specs `:,.0f`,
`:,.2f`, `:.2f` and `:,`.  Python's fixed-point formatting rounds
half-to-even and groups the integer part by thousands. -/

/-- Exact rational addition, written through `mkRat` so that kernel
evaluation (`decide`) can unfold it — the core `Rat.add` is marked
irreducible.  `rAdd_eq` proves it agrees with `+`. -/
def rAdd (a b : Rat) : Rat :=
  mkRat (a.num * b.den + b.num * a.den) (a.den * b.den)

/-- Exact rational subtraction through `mkRat`; agrees with `-`
(`rSub_eq`). -/
def rSub (a b : Rat) : Rat :=
  mkRat (a.num * b.den - b.num * a.den) (a.den * b.den)

/-- Exact rational multiplication through `mkRat`; agrees with `*`
(`rMul_eq`). -/
def rMul (a b : Rat) : Rat :=
  mkRat (a.num * b.num) (a.den * b.den)

/-- Exact rational division through `mkRat`; agrees with `/`
(`rDiv_eq`), including the `x / 0 = 0` convention. -/
def rDiv (a b : Rat) : Rat :=
  mkRat (a.num * b.den * (if b.num < 0 then -1 else 1)) (a.den * b.num.natAbs)

/-- Sum of a list of rationals through `rAdd`; agrees with `List.sum`
(`sumR_eq`). -/
def sumR (l : List Rat) : Rat := l.foldr rAdd 0

/-- Round a rational to the nearest integer, ties to even (the rounding
used by Python's fixed-point float formatting). -/
def roundHalfEven (q : Rat) : Int :=
  let f : Int := q.floor
  let r : Rat := rSub q (mkRat f 1)
  if r < mkRat 1 2 then f
  else if mkRat 1 2 < r then f + 1
  else if f % 2 = 0 then f else f + 1

/-- Insert a thousands separator every three characters of a reversed
digit list. -/
def commaGroupRev : List Char → Nat → List Char
  | [], _ => []
  | c :: cs, k =>
    if k = 3 then ',' :: c :: commaGroupRev cs 1
    else c :: commaGroupRev cs (k + 1)

/-- Decimal digits of a natural number with thousands separators
(Python `:,` on a non-negative int). -/
def commaNat (n : Nat) : String :=
  String.mk ((commaGroupRev (Nat.toDigits 10 n).reverse 0).reverse)

/-- Python `:,` format of an int. -/
def commaInt (n : Int) : String :=
  (if n < 0 then "-" else "") ++ commaNat n.natAbs

/-- Left-pad the decimal digits of `n` with zeros to width `w`. -/
def padZeros (w : Nat) (n : Nat) : String :=
  let ds := Nat.toDigits 10 n
  String.mk (List.replicate (w - ds.length) '0' ++ ds)

/-- Python fixed-point formatting of a rational: `decs` fractional
digits, optional thousands separators (`comma`), half-even rounding. -/
def fmtFixed (decs : Nat) (comma : Bool) (q : Rat) : String :=
  let scaled := roundHalfEven (rMul q (mkRat ((10 ^ decs : Nat) : Int) 1))
  let sign := if scaled < 0 then "-" else ""
  let m := scaled.natAbs
  let ip := m / 10 ^ decs
  let fp := m % 10 ^ decs
  let ipStr := if comma then commaNat ip else String.mk (Nat.toDigits 10 ip)
  if decs = 0 then sign ++ ipStr
  else sign ++ ipStr ++ "." ++ padZeros decs fp

/-- Python `:,.0f`. -/
def fmtC0 (q : Rat) : String := fmtFixed 0 true q

/-- Python `:,.2f`. -/
def fmtC2 (q : Rat) : String := fmtFixed 2 true q

/-- Python `:.2f`. -/
def fmt2 (q : Rat) : String := fmtFixed 2 false q

/-- Python `int(x)` on a rational value: truncation toward zero. -/
def pyint (q : Rat) : Int :=
  if 0 ≤ q then ((q.num.toNat / q.den : Nat) : Int)
  else -(((-q.num).toNat / q.den : Nat) : Int)

/-- Escape of one character inside a JSON string literal (quote and
backslash; the amenity strings of this data set need no other escapes). -/
def jsonEscapeChar (c : Char) : List Char :=
  if c = '"' then ['\\', '"']
  else if c = '\\' then ['\\', '\\']
  else [c]

/-- JSON string-literal escaping, modelling `json.dumps` on an ASCII
string. -/
def jsonEscape (s : String) : String := String.mk (s.data.flatMap jsonEscapeChar)

/-- Model of Python `json.dumps` applied to a list of strings: bracketed,
`", "`-separated, each element a quoted escaped string — exactly the
rendering used by `database.insert_hotel` (storage) and by the
`Amenities:` report line of `agent._search_all_data` (display). -/
def jsonDumpsStrList (xs : List String) : String :=
  "[" ++ String.intercalate ", " (xs.map (fun a => "\"" ++ jsonEscape a ++ "\"")) ++ "]"

/-! ### Data model (`database.py`: tables `flights`, `hotels`, `places`)

Prices, ratings (SQL `DECIMAL`) are `Rat`; `TIMESTAMP` columns are
carried as their display strings (`_search_all_data` only ever converts
them to strings, no claim depends on date arithmetic). -/

/-- A row of the `flights` table. -/
structure Flight where
  flight_id : String
  airline : String
  from_city : String
  to_city : String
  departure_time : String
  arrival_time : String
  price : Rat
deriving DecidableEq

/-- A row of the `hotels` table.  `amenities` is the raw `TEXT` column:
`insert_hotel` writes a JSON-encoded list into it, but seed paths of the
repository's history also left plain comma-delimited strings. -/
structure Hotel where
  hotel_id : String
  name : String
  city : String
  stars : Int
  price_per_night : Rat
  amenities : String
deriving DecidableEq

/-- A row of the `places` table.  A SQL `NULL` type is modelled as `""`
(both are falsy where the aggregator tests `p['type'] or 'general'`). -/
structure Place where
  place_id : String
  name : String
  city : String
  type : String
  rating : Rat
deriving DecidableEq

/-- The relational store's contents (row insertion order preserved). -/
structure Store where
  flights : List Flight
  hotels : List Hotel
  places : List Place
deriving DecidableEq

/-- One `TravelDatabase` session.  `alive` is the liveness of the single
psycopg2 connection; `queryFault` injects a `psycopg2.Error` raised by
`cursor.execute` even while connected (e.g. a SQL error); `connectOk`
says whether an attempt to (re)establish the connection would succeed;
`connectCount` counts the `_connect` invocations performed after
initialization; `fault` injects an arbitrary non-database Python
exception inside the body of `_search_all_data` (modelling the failures
its blanket `except Exception` clause exists for). -/
structure Session where
  store : Store
  alive : Bool
  queryFault : Bool
  connectOk : Bool
  connectCount : Nat
  fault : Option String
deriving DecidableEq

/-- Errors raised by the psycopg2 driver, all subclasses of
`psycopg2.Error`: a dead connection raises `OperationalError`, a failing
statement raises e.g. `ProgrammingError`. -/
inductive PgError where
  | operational
  | programming
deriving DecidableEq

/-- `TravelDatabase._connect` (`database.py` lines 40-55): (re)establish
the connection, raising a plain `Exception` when psycopg2 fails.  No
query method of `database.py` ever calls it; it only runs at
`__init__`. -/
def Session.connect (s : Session) : Except String Session :=
  if s.connectOk then
    .ok { s with alive := true, connectCount := s.connectCount + 1 }
  else
    .error "PostgreSQL connection error"

/-- Outcome of `self.cursor.execute(...)` followed by `fetchall()` on a
session: the rows when the connection is alive and the statement runs,
a `psycopg2.Error` otherwise. -/
def execQuery (s : Session) (rows : List α) : Except PgError (List α) :=
  if s.alive = false then .error .operational
  else if s.queryFault then .error .programming
  else .ok rows

/-! ### Query layer (`database.py`: `get_flights`, `get_hotels`,
`get_places`)

SQL `ORDER BY` is modelled by the stable `List.insertionSort` on the
stored row order (the SQL standard leaves tie order unspecified; any
fixed choice is a faithful refinement). -/

/-- Sort key of `ORDER BY price ASC` on flights. -/
def flightLE (a b : Flight) : Prop := a.price ≤ b.price

instance : DecidableRel flightLE := fun a b =>
  inferInstanceAs (Decidable (a.price ≤ b.price))

instance : IsTotal Flight flightLE := ⟨fun a b => le_total a.price b.price⟩

instance : IsTrans Flight flightLE :=
  ⟨fun _ _ _ h h' => le_trans (α := Rat) h h'⟩

/-- Sort key of `ORDER BY stars DESC, price_per_night ASC` on hotels. -/
def hotelLE (a b : Hotel) : Prop :=
  b.stars < a.stars ∨ (a.stars = b.stars ∧ a.price_per_night ≤ b.price_per_night)

instance : DecidableRel hotelLE := fun a b =>
  inferInstanceAs (Decidable (b.stars < a.stars ∨
    (a.stars = b.stars ∧ a.price_per_night ≤ b.price_per_night)))

instance : IsTotal Hotel hotelLE := by
  constructor
  intro a b
  rcases lt_trichotomy a.stars b.stars with h | h | h
  · exact Or.inr (Or.inl h)
  · rcases le_total a.price_per_night b.price_per_night with hp | hp
    · exact Or.inl (Or.inr ⟨h, hp⟩)
    · exact Or.inr (Or.inr ⟨h.symm, hp⟩)
  · exact Or.inl (Or.inl h)

instance : IsTrans Hotel hotelLE := by
  constructor
  intro a b c hab hbc
  rcases hab with h1 | ⟨e1, p1⟩
  · rcases hbc with h2 | ⟨e2, _⟩
    · exact Or.inl (h2.trans h1)
    · exact Or.inl (e2 ▸ h1)
  · rcases hbc with h2 | ⟨e2, p2⟩
    · exact Or.inl (e1 ▸ h2)
    · exact Or.inr ⟨e1.trans e2, le_trans (α := Rat) p1 p2⟩

/-- Sort key of `ORDER BY rating DESC` on places. -/
def placeLE (a b : Place) : Prop := b.rating ≤ a.rating

instance : DecidableRel placeLE := fun a b =>
  inferInstanceAs (Decidable (b.rating ≤ a.rating))

instance : IsTotal Place placeLE := ⟨fun a b => (le_total b.rating a.rating)⟩

instance : IsTrans Place placeLE :=
  ⟨fun _ _ _ h h' => le_trans (α := Rat) h' h⟩

/-- Row set produced by the SQL statement of `get_flights`: filter on
case-insensitive city equality and the optional price ceiling (note the
Python truthiness test `if max_price:` — `None` and `0` both skip the
filter), order by price ascending, `LIMIT limit`. -/
def flightQuery (store : Store) (source destination : String)
    (maxPrice : Option Rat) (limit : Nat) : List Flight :=
  let priceOk := fun (pr : Rat) =>
    match maxPrice with
    | none => true
    | some p => if p = 0 then true else decide (pr ≤ p)
  let keep := fun (f : Flight) =>
    (pylower f.from_city == pylower source) &&
      (pylower f.to_city == pylower destination) && priceOk f.price
  ((store.flights.filter keep).insertionSort flightLE).take limit

/-- `TravelDatabase.get_flights` (`database.py` lines 275-301) with the
session threaded through: `cursor.execute`; any `psycopg2.Error` is
caught, logged and turned into `[]`.  The method body contains no
liveness probe and never calls `_connect`, so the session comes back
unchanged on every path. -/
def get_flightsSt (s : Session) (source destination : String)
    (maxPrice : Option Rat) (limit : Nat) : List Flight × Session :=
  match execQuery s (flightQuery s.store source destination maxPrice limit) with
  | .error _ => ([], s)
  | .ok rows => (rows, s)

/-- `TravelDatabase.get_flights`, result only. -/
def get_flights (s : Session) (source destination : String)
    (maxPrice : Option Rat) (limit : Nat) : List Flight :=
  (get_flightsSt s source destination maxPrice limit).1

/-- Row set produced by the SQL statement of `get_hotels`:
case-insensitive city match, `stars >= min_stars`, optional price
ceiling (Python-truthiness guarded), `ORDER BY stars DESC,
price_per_night ASC LIMIT limit`. -/
def hotelQuery (store : Store) (city : String) (minStars : Int)
    (maxPrice : Option Rat) (limit : Nat) : List Hotel :=
  let priceOk := fun (pr : Rat) =>
    match maxPrice with
    | none => true
    | some p => if p = 0 then true else decide (pr ≤ p)
  let keep := fun (h : Hotel) =>
    (pylower h.city == pylower city) && decide (minStars ≤ h.stars) &&
      priceOk h.price_per_night
  ((store.hotels.filter keep).insertionSort hotelLE).take limit

/-- `TravelDatabase.get_hotels` (`database.py` lines 303-346): any
`psycopg2.Error` becomes `[]`.  The optional `amenities` post-filter
parameter is omitted from the model: the aggregator always calls with
`amenities=None`, and the code skips that block entirely in that case. -/
def get_hotels (s : Session) (city : String) (minStars : Int)
    (maxPrice : Option Rat) (limit : Nat) : List Hotel :=
  match execQuery s (hotelQuery s.store city minStars maxPrice limit) with
  | .error _ => []
  | .ok rows => rows

/-- Row set produced by the SQL statement of `get_places`:
case-insensitive city match, `rating >= min_rating`, `ORDER BY rating
DESC LIMIT limit`. -/
def placeQuery (store : Store) (city : String) (minRating : Rat)
    (limit : Nat) : List Place :=
  let keep := fun (p : Place) =>
    (pylower p.city == pylower city) && decide (minRating ≤ p.rating)
  ((store.places.filter keep).insertionSort placeLE).take limit

/-- `TravelDatabase.get_places` (`database.py` lines 348-371): any
`psycopg2.Error` becomes `[]`.  The optional `place_type` `LIKE` filter
parameter is omitted from the model: the aggregator never passes it, and
the code adds no clause in that case. -/
def get_places (s : Session) (city : String) (minRating : Rat)
    (limit : Nat) : List Place :=
  match execQuery s (placeQuery s.store city minRating limit) with
  | .error _ => []
  | .ok rows => rows

/-- Field bundle accepted by `TravelDatabase.insert_hotel`
(`database.py` lines 223-249); `amenities` arrives as a Python list of
strings from the JSON seed files. -/
structure HotelData where
  hotel_id : String
  name : String
  city : String
  stars : Int
  price_per_night : Rat
  amenities : List String
deriving DecidableEq

/-- `TravelDatabase.insert_hotel`: serializes the amenities list with
`json.dumps` and inserts the row, `ON CONFLICT (hotel_id) DO NOTHING`. -/
def insert_hotel (st : Store) (hd : HotelData) : Store :=
  if st.hotels.any (fun h => h.hotel_id = hd.hotel_id) then st
  else
    { st with
      hotels := st.hotels ++
        [⟨hd.hotel_id, hd.name, hd.city, hd.stars, hd.price_per_night,
          jsonDumpsStrList hd.amenities⟩] }

/-! ### Dynamic tool-input values (`agent.py`: `ensure_string`)

The model backend may hand the tool a string, a list, `None`, numbers,
datetimes or Decimals.  `PyVal` covers the cases `ensure_string`
distinguishes.  A `datetime` is carried as its `isoformat()` string and a
`Decimal` as its `str(float(...))` rendering, since those are the only
projections the code ever takes of them. -/

inductive PyVal where
  | s (v : String)
  | none
  | int (n : Int)
  | dt (iso : String)
  | dec (floatStr : String)
  | list (xs : List PyVal)

/-- Python `str(x)` on the values above (for a nested list, the bracketed
comma-joined rendering of its elements; the inner quoting of `repr` is
not reproduced, no code path of the claims reaches it). -/
def pyStr : PyVal → String
  | .s v => v
  | .none => "None"
  | .int n => toString n
  | .dt iso => iso
  | .dec fs => fs
  | .list xs => "[" ++ String.intercalate ", " (xs.map pyStrShallow) ++ "]"
where
  /-- One level of `str` for list elements. -/
  pyStrShallow : PyVal → String
  | .s v => v
  | .none => "None"
  | .int n => toString n
  | .dt iso => iso
  | .dec fs => fs
  | .list _ => "[...]"

/-- `ensure_string` (`agent.py` lines 66-76): list → elements
`str`-converted and joined with `", "`; `None` → `""`; datetime →
isoformat; Decimal → `str(float(value))`; anything else → `str(value)`. -/
def ensureString : PyVal → String
  | .list xs => String.intercalate ", " (xs.map pyStr)
  | .none => ""
  | .dt iso => iso
  | .dec fs => fs
  | v => pyStr v

/-! ### The aggregation tool (`agent.py`: `TravelAgent._search_all_data`) -/

/-- The query descriptor parsed out of the pipe-delimited tool input
(`agent.py` lines 248-256): cities stripped and title-cased, budget tier
stripped and lower-cased, interests (4th field, if present) stripped. -/
structure ParsedQuery where
  from_city : String
  to_city : String
  budget_level : String
  interests : String
deriving DecidableEq

/-- Parse step of `_search_all_data`: split on `|`, require at least 3
fields (`none` models the early `return` of the instructional error),
normalize each field.  Fields beyond the 4th are ignored, exactly as the
code only reads `parts[3]`. -/
def parseQuery (q : String) : Option ParsedQuery :=
  match pysplit '|' q with
  | a :: b :: c :: rest =>
    some ⟨pytitle (pystrip a), pytitle (pystrip b), pylower (pystrip c),
      match rest with
      | d :: _ => pystrip d
      | [] => ""⟩
  | _ => none

/-- Budget-tier multiplier (`agent.py` line 276):
`{"budget": 0.7, "moderate": 1.0, "luxury": 1.5}.get(budget_level, 1.0)`. -/
def budgetMultiplier (tier : String) : Rat :=
  if tier = "budget" then mkRat 7 10
  else if tier = "moderate" then 1
  else if tier = "luxury" then mkRat 3 2
  else 1

/-- Hotel price ceiling passed to `get_hotels` (`agent.py` line 277):
`5000 * budget_multiplier`. -/
def maxHotelPrice (tier : String) : Rat := rMul 5000 (budgetMultiplier tier)

/-- The flights fetched by `_search_all_data` (`agent.py` line 261):
`self.db.get_flights(from_city, to_city, limit=5)`. -/
def fetchedFlights (s : Session) (q : ParsedQuery) : List Flight :=
  get_flights s q.from_city q.to_city Option.none 5

/-- The hotels fetched by `_search_all_data` (`agent.py` line 279):
`self.db.get_hotels(to_city, min_stars=3, max_price=max_hotel_price,
limit=5)`. -/
def fetchedHotels (s : Session) (q : ParsedQuery) : List Hotel :=
  get_hotels s q.to_city 3 (some (maxHotelPrice q.budget_level)) 5

/-- The places fetched by `_search_all_data` (`agent.py` line 292):
`self.db.get_places(to_city, min_rating=3.5, limit=15)`. -/
def fetchedPlaces (s : Session) (q : ParsedQuery) : List Place :=
  get_places s q.to_city (mkRat 7 2) 15

/-- First display line of one flight:
`f"{i}. {f['airline']} - ₹{float(f['price']):,.0f}"`. -/
def flightLine1 (i : Nat) (f : Flight) : String :=
  toString (i + 1) ++ ". " ++ f.airline ++ " - ₹" ++ fmtC0 f.price

/-- Second display line of one flight. -/
def flightLine2 (f : Flight) : String :=
  "   Departure: " ++ f.departure_time ++ " | Arrival: " ++ f.arrival_time

/-- FLIGHTS section of the report (`agent.py` lines 261-273): header plus
two lines for each of the first 3 flights and a blank separator, or the
explicit not-found message. -/
def flightLines (s : Session) (q : ParsedQuery) : List String :=
  let flights := fetchedFlights s q
  if flights.isEmpty then
    ["No direct flights found for " ++ q.from_city ++ " → " ++ q.to_city ++ "\n"]
  else
    ("FLIGHTS (" ++ q.from_city ++ " → " ++ q.to_city ++ "):")
      :: ((flights.take 3).enum.flatMap (fun p => [flightLine1 p.1 p.2, flightLine2 p.2])
        ++ [""])

/-- Amenity list a hotel is displayed with (`agent.py` lines 283-284):
the raw stored `amenities` string split on commas (no JSON decoding; an
empty or missing value gives `[]`), truncated to the first 5. -/
def displayedAmenities (h : Hotel) : List String :=
  (if h.amenities = "" then [] else pysplit ',' h.amenities).take 5

/-- First display line of one hotel. -/
def hotelLine1 (i : Nat) (h : Hotel) : String :=
  toString (i + 1) ++ ". " ++ h.name ++ " - ₹" ++ fmtC2 h.price_per_night ++
    "/night | ⭐" ++ toString h.stars

/-- Second display line of one hotel: the truncated amenity list
re-rendered with `json.dumps`. -/
def hotelLine2 (h : Hotel) : String :=
  "   Amenities: " ++ jsonDumpsStrList (displayedAmenities h)

/-- HOTELS section of the report (`agent.py` lines 279-289). -/
def hotelLines (s : Session) (q : ParsedQuery) : List String :=
  let hotels := fetchedHotels s q
  if hotels.isEmpty then
    ["No hotels found in " ++ q.to_city ++ "\n"]
  else
    ("HOTELS in " ++ q.to_city ++ ":")
      :: ((hotels.take 3).enum.flatMap (fun p => [hotelLine1 p.1 p.2, hotelLine2 p.2])
        ++ [""])

/-- Insert a place into the insertion-ordered grouping dict
(`place_types` in the code). -/
def insertGroup (k : String) (p : Place) :
    List (String × List Place) → List (String × List Place)
  | [] => [(k, [p])]
  | (k', ps) :: rest =>
    if k' = k then (k', ps ++ [p]) :: rest else (k', ps) :: insertGroup k p rest

/-- Group places by `p['type'] or 'general'` preserving first-occurrence
key order, as a Python dict built in a loop does (`agent.py` lines
297-302). -/
def groupPlaces (ps : List Place) : List (String × List Place) :=
  ps.foldl (fun acc p =>
    insertGroup (if p.type = "" then "general" else p.type) p acc) []

/-- Display line of one place. -/
def placeLine (p : Place) : String :=
  "  • " ++ p.name ++ " - ⭐" ++ fmt2 p.rating ++ "/5"

/-- Lines of one place-type group: type header, first 3 places, blank
separator. -/
def placeGroupLines (g : String × List Place) : List String :=
  (g.1 ++ ":") :: ((g.2.take 3).map placeLine ++ [""])

/-- ATTRACTIONS section of the report (`agent.py` lines 292-310): first
5 type groups, 3 places each. -/
def placeLines (s : Session) (q : ParsedQuery) : List String :=
  let places := fetchedPlaces s q
  if places.isEmpty then
    ["No attractions found in " ++ q.to_city ++ "\n"]
  else
    ("TOP ATTRACTIONS in " ++ q.to_city ++ ":\n")
      :: ((groupPlaces places).take 5).flatMap placeGroupLines

/-- `avg_flight` (`agent.py` line 314): mean price of at most the first
2 fetched flights, `sum(flights[:2]) / min(2, len(flights))`. -/
def avgFlight (flights : List Flight) : Rat :=
  rDiv (sumR ((flights.take 2).map Flight.price))
    (mkRat ((min 2 flights.length : Nat) : Int) 1)

/-- `avg_hotel` (`agent.py` line 315): mean nightly price of at most the
first 2 fetched hotels. -/
def avgHotel (hotels : List Hotel) : Rat :=
  rDiv (sumR ((hotels.take 2).map Hotel.price_per_night))
    (mkRat ((min 2 hotels.length : Nat) : Int) 1)

/-- BUDGET ESTIMATE section (`agent.py` lines 313-321): emitted only
under `if flights and hotels:`, i.e. only when both fetched lists are
non-empty; otherwise contributes no lines at all. -/
def budgetLines (s : Session) (q : ParsedQuery) : List String :=
  let flights := fetchedFlights s q
  let hotels := fetchedHotels s q
  if flights.isEmpty || hotels.isEmpty then []
  else
    let mult := budgetMultiplier q.budget_level
    ["BUDGET ESTIMATE (" ++ pytitle q.budget_level ++ "):",
     "Round-trip Flights: ₹" ++ fmtC0 (rMul (avgFlight flights) 2),
     "Hotel per night: ₹" ++ fmtC0 (avgHotel hotels),
     "Food per day: ₹" ++ commaInt (pyint (rMul 1500 mult)),
     "Transport per day: ₹" ++ commaInt (pyint (rMul 800 mult))]

/-- All lines accumulated in the `result` list of `_search_all_data` for
a successfully parsed query, in source order. -/
def reportLines (s : Session) (q : ParsedQuery) : List String :=
  flightLines s q ++ hotelLines s q ++ placeLines s q ++ budgetLines s q ++
    ["\nInterests: " ++ q.interests]

/-- Body of the `try:` block of `_search_all_data` for a string input:
the parse-failure `return` (an ordinary value, not an exception), the
injected unexpected exception (`Session.fault`), or the joined report. -/
def searchBody (s : Session) (q : String) : Except String String :=
  match parseQuery q with
  | Option.none => .ok "Invalid format. Use: from_city|to_city|budget_level|interests"
  | some pq =>
    match s.fault with
    | some m => .error m
    | Option.none => .ok (String.intercalate "\n" (reportLines s pq))

/-- Input coercion of `_search_all_data` (`agent.py` lines 240-246): a
list is joined with `"|"` after `ensure_string`-converting each element;
a non-string scalar goes through `ensure_string`; a string is used
as-is. -/
def toQueryString : PyVal → String
  | .s v => v
  | .list xs => String.intercalate "|" (xs.map ensureString)
  | v => ensureString v

/-- `TravelAgent._search_all_data` (`agent.py` lines 231-331) as seen by
its caller.  `db = none` models `self.db` being unavailable.  The result
type is `Except`: a `.error` would be an exception escaping to the
caller — the blanket `except Exception` clause converts every internal
failure into the `.ok` support-message string instead. -/
def toolSearchAllData (db : Option Session) (q : PyVal) : Except String String :=
  match db with
  | Option.none => .ok "Database not available"
  | some s =>
    .ok (match searchBody s (toQueryString q) with
      | .ok r => r
      | .error m =>
        "Error searching travel data: " ++ m ++
          "\nPlease try again or contact support.")

/-! ### Orchestration entry point (`agent.py`: `TravelAgent.plan_trip`)

`plan_trip` is decorated with `tenacity.retry(retry_if_exception_type(
ResourceExhausted), wait_exponential(multiplier=2, min=30, max=120),
stop_after_attempt(2))`.  The backend is modelled as one outcome per
attempt index. -/

/-- Outcome of one `self.agent_executor.invoke(...)` call. -/
inductive ModelOutcome where
  | ok (answer : String)
  | resourceExhausted (e : String)
  | otherError (e : String)

/-- Python exceptions relevant to the retry predicate. -/
inductive PyExc where
  | resourceExhausted (e : String)
  | other (e : String)
deriving DecidableEq

/-- The retry predicate `retry_if_exception_type(exceptions.ResourceExhausted)`. -/
def retryableExc : PyExc → Bool
  | .resourceExhausted _ => true
  | .other _ => false

/-- The `wait_exponential` / `stop_after_attempt` parameters of the
decorator on `plan_trip`. -/
structure RetryPolicy where
  multiplier : Nat
  minWait : Nat
  maxWait : Nat
  stopAfterAttempt : Nat
deriving DecidableEq

/-- The configured policy: multiplier 2, wait floor 30s, wait ceiling
120s, at most 2 attempts. -/
def planTripRetryPolicy : RetryPolicy :=
  { multiplier := 2, minWait := 30, maxWait := 120, stopAfterAttempt := 2 }

/-- The fixed rate-limit template of `plan_trip` (`agent.py` lines
352-357): the f-string interpolates the first 200 characters of the
caught exception's text. -/
def rateLimitMessage (e : String) : String :=
  "⚠️ **Rate Limit Exceeded**\n            \nFree tier: 1,500 requests/day. Please wait a moment or upgrade your API key.\n\nError: " ++
    pyslice 200 e

/-- Body of `plan_trip` (the function tenacity wraps): every branch
`return`s a string — `exceptions.ResourceExhausted` is caught and turned
into the rate-limit message, any other exception into the generic
support message, so the body itself never raises. -/
def planTripBody (o : ModelOutcome) : String :=
  match o with
  | .ok a => a
  | .resourceExhausted e => rateLimitMessage e
  | .otherError e =>
    "Error planning trip: " ++ e ++
      "\n\nPlease try rephrasing your request or contact support."

/-- Model of `tenacity.retry`: run `attempt` starting at index `i` with
`n` attempts still allowed; retry only when the attempt raises an
exception satisfying `retryable`.  Returns the final result together
with the number of attempts actually made.  On the last allowed attempt
a raised exception propagates (tenacity re-raises once
`stop_after_attempt` is reached). -/
def tenacityRun (attempt : Nat → Except PyExc String) (retryable : PyExc → Bool) :
    Nat → Nat → Except PyExc String × Nat
  | 0, _ => (.error (.other "RetryError"), 0)
  | 1, i => (attempt i, 1)
  | n + 2, i =>
    match attempt i with
    | .ok r => (.ok r, 1)
    | .error e =>
      if retryable e then
        let (r, c) := tenacityRun attempt retryable (n + 1) (i + 1)
        (r, c + 1)
      else (.error e, 1)

/-- `TravelAgent.plan_trip` (`agent.py` lines 333-363) under the
decorator, for a given per-attempt backend behaviour: the result as the
caller sees it, paired with the number of backend invocations made. -/
def planTrip (outcomes : Nat → ModelOutcome) : Except PyExc String × Nat :=
  tenacityRun (fun i => .ok (planTripBody (outcomes i))) retryableExc
    planTripRetryPolicy.stopAfterAttempt 0

/-! ### Route advisor (`app.py`: `get_alternative_routes`)

The Streamlit layer pre-loads `available_routes`, a dict mapping each
origin city to a list of `{'to': city, 'count': n}` records; dict
iteration follows insertion order, so the index is an association list
with distinct keys. -/

/-- One destination record of the route index. -/
structure RouteDest where
  dest : String
  count : Nat
deriving DecidableEq

/-- One proposed alternative route `{'from': ..., 'to': ..., 'count': ...}`. -/
structure AltRoute where
  src : String
  dst : String
  count : Nat
deriving DecidableEq

/-- The pre-loaded route index. -/
abbrev RouteIndex := List (String × List RouteDest)

/-- `get_alternative_routes` (`app.py` lines 372-396), translated loop
by loop: first every route departing `from_city`, then every route of
any other origin arriving at `to_city`, both appended to the
`alternatives` accumulator, finally sliced to the first 10.  The route
index is only read, never written. -/
def get_alternative_routes (routes : RouteIndex) (from_city to_city : String) :
    List AltRoute :=
  let alternatives : List AltRoute :=
    match routes.lookup from_city with
    | some dests =>
      dests.foldl (fun acc d => acc ++ [⟨from_city, d.dest, d.count⟩]) []
    | Option.none => []
  let alternatives :=
    routes.foldl (fun acc p =>
      p.2.foldl (fun acc2 d =>
        if d.dest = to_city ∧ p.1 ≠ from_city then
          acc2 ++ [⟨p.1, to_city, d.count⟩]
        else acc2) acc) alternatives
  alternatives.take 10

/-- Stated from the claim, for comparison with the code: all routes
departing the origin (to any destination), followed by all routes
arriving at the destination from any origin other than the given origin,
truncated to 10 entries. -/
def altRoutesClaim (routes : RouteIndex) (from_city to_city : String) :
    List AltRoute :=
  let fromPart :=
    match routes.lookup from_city with
    | some dests => dests.map (fun d => ⟨from_city, d.dest, d.count⟩)
    | Option.none => []
  let toPart :=
    routes.flatMap (fun p =>
      (p.2.filter (fun d => decide (d.dest = to_city ∧ p.1 ≠ from_city))).map
        (fun d => ⟨p.1, to_city, d.count⟩))
  (fromPart ++ toPart).take 10

/-! ### Concrete data used by witnesses and counterexamples -/

/-- A session over an empty store, connected and fault-free. -/
def emptySession : Session :=
  ⟨⟨[], [], []⟩, true, false, true, 0, Option.none⟩

/-- A query descriptor as parsed from `"Delhi|Goa|moderate"`. -/
def qDG : ParsedQuery := ⟨"Delhi", "Goa", "moderate", ""⟩

/-- Data for the C4 witness: one Delhi→Goa flight and one Goa hotel. -/
def flightW : Flight :=
  ⟨"FW1", "IndiGo", "Delhi", "Goa", "2025-01-01 06:00:00",
    "2025-01-01 08:30:00", 4000⟩

/-- Goa hotel row for the C4 witness. -/
def hotelW : Hotel := ⟨"HW1", "Beach Resort", "Goa", 4, 3200, "WiFi,Pool"⟩

/-- Live session whose store holds `flightW` and `hotelW`. -/
def sessW : Session :=
  ⟨⟨[flightW], [hotelW], []⟩, true, false, true, 0, Option.none⟩

/-- Session whose store raises on every query (`queryFault`). -/
def faultSession : Session :=
  ⟨⟨[], [], []⟩, true, true, true, 0, Option.none⟩

/-- First of two equally priced Delhi→Goa flights. -/
def flightTieA : Flight :=
  ⟨"FT1", "IndiGo", "Delhi", "Goa", "2025-01-01 06:00:00",
    "2025-01-01 08:30:00", 4500⟩

/-- Second flight with the same price on the same route. -/
def flightTieB : Flight :=
  ⟨"FT2", "Air India", "Delhi", "Goa", "2025-01-01 09:00:00",
    "2025-01-01 11:30:00", 4500⟩

/-- Live session whose store holds the two tied flights. -/
def tieSession : Session :=
  ⟨⟨[flightTieA, flightTieB], [], []⟩, true, false, true, 0, Option.none⟩

/-- Delhi→Goa flight present in the store of the C5 counterexample. -/
def flightDG : Flight :=
  ⟨"FD1", "SpiceJet", "Delhi", "Goa", "2025-02-01 07:00:00",
    "2025-02-01 09:30:00", 3800⟩

/-- A session whose store connection has been severed (`alive = false`)
while its store still holds `flightDG`. -/
def severedSession : Session :=
  ⟨⟨[flightDG], [], []⟩, false, false, true, 0, Option.none⟩

/-- The hotel row produced by `insert_hotel` from a seed record with
amenity list `["WiFi", "Pool"]`: the stored text is the JSON encoding. -/
def hotelJsonStored : Hotel :=
  ⟨"HJ1", "Taj Resort", "Goa", 5, 8000, "[\"WiFi\", \"Pool\"]"⟩

/-- An otherwise identical hotel row whose amenities were stored as a
plain comma-delimited string. -/
def hotelPlainStored : Hotel :=
  ⟨"HP1", "Taj Resort", "Goa", 5, 8000, "WiFi,Pool"⟩

/-- Route index for the C9 witness: one Delhi→Goa route. -/
def routesW : RouteIndex := [("Delhi", [⟨"Goa", 3⟩])]

/-! ### Helper lemmas -/

theorem rAdd_eq (a b : Rat) : rAdd a b = a + b := by
  have ha : ((a.den : Rat)) ≠ 0 := by exact_mod_cast a.den_nz
  have hb : ((b.den : Rat)) ≠ 0 := by exact_mod_cast b.den_nz
  conv_rhs => rw [← Rat.num_div_den a, ← Rat.num_div_den b]
  rw [rAdd, Rat.mkRat_eq_div]
  push_cast
  field_simp

theorem rSub_eq (a b : Rat) : rSub a b = a - b := by
  have ha : ((a.den : Rat)) ≠ 0 := by exact_mod_cast a.den_nz
  have hb : ((b.den : Rat)) ≠ 0 := by exact_mod_cast b.den_nz
  conv_rhs => rw [← Rat.num_div_den a, ← Rat.num_div_den b]
  rw [rSub, Rat.mkRat_eq_div]
  push_cast
  field_simp
  ring

theorem rMul_eq (a b : Rat) : rMul a b = a * b := by
  conv_rhs => rw [← Rat.num_div_den a, ← Rat.num_div_den b]
  rw [rMul, Rat.mkRat_eq_div]
  push_cast
  rw [div_mul_div_comm]

theorem rDiv_eq (a b : Rat) : rDiv a b = a / b := by
  rcases eq_or_ne b 0 with hb | hb
  · subst hb
    rw [rDiv]
    norm_num
  · have hbn : b.num ≠ 0 := Rat.num_ne_zero.2 hb
    have ha : ((a.den : Rat)) ≠ 0 := by exact_mod_cast a.den_nz
    have hd : ((b.den : Rat)) ≠ 0 := by exact_mod_cast b.den_nz
    have hn : ((b.num : Rat)) ≠ 0 := by exact_mod_cast hbn
    conv_rhs => rw [← Rat.num_div_den a, ← Rat.num_div_den b]
    rw [rDiv, Rat.mkRat_eq_div]
    rcases lt_or_gt_of_ne hbn with hneg | hpos
    · rw [if_pos hneg]
      have habs : ((b.num.natAbs : Rat)) = -((b.num : Rat)) := by
        rw [Int.cast_natAbs]
        exact_mod_cast abs_of_neg hneg
      push_cast
      rw [habs]
      field_simp
    · rw [if_neg (not_lt.2 (le_of_lt hpos))]
      have habs : ((b.num.natAbs : Rat)) = ((b.num : Rat)) := by
        rw [Int.cast_natAbs]
        exact_mod_cast abs_of_pos hpos
      push_cast
      rw [habs]
      field_simp

theorem sumR_eq (l : List Rat) : sumR l = l.sum := by
  induction l with
  | nil => rfl
  | cons x xs ih => rw [sumR, List.foldr_cons, List.sum_cons, ← sumR, ih, rAdd_eq]

theorem avgFlight_eq (flights : List Flight) :
    avgFlight flights =
      ((flights.take 2).map Flight.price).sum /
        ((min 2 flights.length : Nat) : Rat) := by
  rw [avgFlight, rDiv_eq, sumR_eq, Rat.mkRat_eq_div]
  norm_num

theorem avgHotel_eq (hotels : List Hotel) :
    avgHotel hotels =
      ((hotels.take 2).map Hotel.price_per_night).sum /
        ((min 2 hotels.length : Nat) : Rat) := by
  rw [avgHotel, rDiv_eq, sumR_eq, Rat.mkRat_eq_div]
  norm_num

theorem parseQuery_eq_none (q : String) (h : (pysplit '|' q).length < 3) :
    parseQuery q = Option.none := by
  unfold parseQuery
  cases hq : pysplit '|' q with
  | nil => rfl
  | cons a t1 =>
    cases t1 with
    | nil => rfl
    | cons b t2 =>
      cases t2 with
      | nil => rfl
      | cons c t3 => rw [hq] at h; simp at h; omega

theorem execQuery_ok {α : Type} {s : Session} {x rows : List α}
    (h : execQuery s x = .ok rows) : rows = x := by
  unfold execQuery at h
  split at h
  · cases h
  · split at h
    · cases h
    · cases h
      rfl

theorem get_flights_cases (s : Session) (src dst : String) (mp : Option Rat)
    (lim : Nat) :
    get_flights s src dst mp lim = [] ∨
      get_flights s src dst mp lim = flightQuery s.store src dst mp lim := by
  unfold get_flights get_flightsSt
  cases hE : execQuery s (flightQuery s.store src dst mp lim) with
  | error e => exact Or.inl rfl
  | ok rows => exact Or.inr (by rw [execQuery_ok hE])

theorem get_hotels_cases (s : Session) (city : String) (mnS : Int)
    (mp : Option Rat) (lim : Nat) :
    get_hotels s city mnS mp lim = [] ∨
      get_hotels s city mnS mp lim = hotelQuery s.store city mnS mp lim := by
  unfold get_hotels
  cases hE : execQuery s (hotelQuery s.store city mnS mp lim) with
  | error e => exact Or.inl rfl
  | ok rows => exact Or.inr (by rw [execQuery_ok hE])

theorem get_places_cases (s : Session) (city : String) (mnR : Rat) (lim : Nat) :
    get_places s city mnR lim = [] ∨
      get_places s city mnR lim = placeQuery s.store city mnR lim := by
  unfold get_places
  cases hE : execQuery s (placeQuery s.store city mnR lim) with
  | error e => exact Or.inl rfl
  | ok rows => exact Or.inr (by rw [execQuery_ok hE])

theorem flightQuery_sorted (st : Store) (src dst : String) (mp : Option Rat)
    (lim : Nat) : (flightQuery st src dst mp lim).Pairwise flightLE :=
  (List.sorted_insertionSort flightLE _).sublist (List.take_sublist _ _)

theorem hotelQuery_sorted (st : Store) (city : String) (mnS : Int)
    (mp : Option Rat) (lim : Nat) :
    (hotelQuery st city mnS mp lim).Pairwise hotelLE :=
  (List.sorted_insertionSort hotelLE _).sublist (List.take_sublist _ _)

theorem placeQuery_sorted (st : Store) (city : String) (mnR : Rat)
    (lim : Nat) : (placeQuery st city mnR lim).Pairwise placeLE :=
  (List.sorted_insertionSort placeLE _).sublist (List.take_sublist _ _)

theorem foldl_append_map {α β : Type} (f : α → β) (l : List α) (acc : List β) :
    l.foldl (fun a x => a ++ [f x]) acc = acc ++ l.map f := by
  induction l generalizing acc with
  | nil => simp
  | cons x xs ih => simp [ih]

theorem foldl_filter_append {α β : Type} (p : α → Prop) [DecidablePred p]
    (f : α → β) (l : List α) (acc : List β) :
    l.foldl (fun a x => if p x then a ++ [f x] else a) acc =
      acc ++ (l.filter (fun x => decide (p x))).map f := by
  induction l generalizing acc with
  | nil => simp
  | cons x xs ih => by_cases h : p x <;> simp [h, ih]

theorem foldl_routes (g t : String) (routes : RouteIndex) (acc : List AltRoute) :
    routes.foldl (fun acc p =>
        p.2.foldl (fun acc2 d =>
          if d.dest = t ∧ p.1 ≠ g then acc2 ++ [⟨p.1, t, d.count⟩] else acc2) acc)
      acc =
      acc ++ routes.flatMap (fun p =>
        (p.2.filter (fun d => decide (d.dest = t ∧ p.1 ≠ g))).map
          (fun d => ⟨p.1, t, d.count⟩)) := by
  induction routes generalizing acc with
  | nil => simp
  | cons p ps ih =>
    rw [List.foldl_cons, foldl_filter_append, ih, List.flatMap_cons,
      List.append_assoc]

/-! ### Claim theorems -/

/-- C2: for every string input to `_search_all_data`, when the input
splits on `|` into fewer than 3 fields the tool returns the
instructional format-error string, and on any input the tool call
terminates with an ordinary string result — no exception reaches the
caller (every internal failure is converted to an error string by the
blanket `except` clause). -/
theorem search_all_data_error_handling (s : Session) (q : String) :
    ((pysplit '|' q).length < 3 →
      toolSearchAllData (some s) (.s q) =
        .ok "Invalid format. Use: from_city|to_city|budget_level|interests") ∧
    ∃ r, toolSearchAllData (some s) (.s q) = .ok r := by
  constructor
  · intro h
    simp [toolSearchAllData, searchBody, toQueryString, parseQuery_eq_none q h]
  · exact ⟨_, rfl⟩

/-- C2 witness: the two-field input `"Mumbai|Goa"` yields the
instructional error string. -/
theorem search_all_data_error_handling_witness :
    toolSearchAllData (some emptySession) (.s "Mumbai|Goa") =
      .ok "Invalid format. Use: from_city|to_city|budget_level|interests" :=
  (search_all_data_error_handling emptySession "Mumbai|Goa").1 (by decide)

/-- C3: the lowercased-and-trimmed budget tier maps to multiplier 0.7
for "budget", 1.0 for "moderate", 1.5 for "luxury" and 1.0 for anything
else; the hotel price ceiling handed to `get_hotels` is `5000 ×`
multiplier; `"delhi|jaipur|luxury"` parses to multiplier 1.5, ceiling
7500 and empty interests, and `"Mumbai|Goa|moderate|beaches,food"`
parses to origin Mumbai, destination Goa, multiplier 1.0, ceiling
5000. -/
theorem budget_tier_policy :
    budgetMultiplier "budget" = 7 / 10 ∧
    budgetMultiplier "moderate" = 1 ∧
    budgetMultiplier "luxury" = 3 / 2 ∧
    (∀ t : String, t ≠ "budget" → t ≠ "moderate" → t ≠ "luxury" →
      budgetMultiplier t = 1) ∧
    (∀ t : String, maxHotelPrice t = 5000 * budgetMultiplier t) ∧
    parseQuery "delhi|jaipur|luxury" =
      some ⟨"Delhi", "Jaipur", "luxury", ""⟩ ∧
    maxHotelPrice "luxury" = 7500 ∧
    parseQuery "Mumbai|Goa|moderate|beaches,food" =
      some ⟨"Mumbai", "Goa", "moderate", "beaches,food"⟩ ∧
    maxHotelPrice "moderate" = 5000 := by
  refine ⟨?_, rfl, ?_, ?_, fun t => rMul_eq 5000 (budgetMultiplier t), by decide,
    ?_, by decide, ?_⟩
  · rw [show budgetMultiplier "budget" = mkRat 7 10 from rfl, Rat.mkRat_eq_div]
    norm_num
  · rw [show budgetMultiplier "luxury" = mkRat 3 2 from rfl, Rat.mkRat_eq_div]
    norm_num
  · intro t h1 h2 h3
    simp [budgetMultiplier, h1, h2, h3]
  · rw [show maxHotelPrice "luxury" = rMul 5000 (mkRat 3 2) from rfl, rMul_eq,
      Rat.mkRat_eq_div]
    norm_num
  · rw [show maxHotelPrice "moderate" = rMul 5000 1 from rfl, rMul_eq]
    norm_num

/-- C3 witness: an unrecognized tier gets the default multiplier 1. -/
theorem budget_tier_policy_witness : budgetMultiplier "premium" = 1 :=
  budget_tier_policy.2.2.2.1 "premium" (by decide) (by decide) (by decide)

/-- C10: a list-typed tool input is processed exactly as the string
obtained by joining the `ensure_string`-conversion of its elements with
`"|"`, where `ensure_string` sends `None` to `""`, a nested list to its
elements' `str`-forms joined by `", "`, a datetime to its ISO form and a
Decimal to its float string. -/
theorem list_input_equals_joined_string (db : Option Session) (xs : List PyVal) :
    toolSearchAllData db (.list xs) =
      toolSearchAllData db (.s (String.intercalate "|" (xs.map ensureString))) ∧
    ensureString PyVal.none = "" ∧
    (∀ ys : List PyVal,
      ensureString (.list ys) = String.intercalate ", " (ys.map pyStr)) ∧
    (∀ iso : String, ensureString (.dt iso) = iso) ∧
    (∀ fs : String, ensureString (.dec fs) = fs) := by
  refine ⟨?_, rfl, fun ys => rfl, fun iso => rfl, fun fs => rfl⟩
  cases db <;> rfl


/-- C4: the BUDGET ESTIMATE section is present in the aggregation output
iff both the fetched flight list and the fetched hotel list are
non-empty (omitted, not zero-filled, otherwise); when present, the
reported round-trip flight cost is 2 × the average of the prices of at
most the first 2 returned flights (sum of the first `min 2 n` prices
divided by `min 2 n`), and the hotel-per-night figure is the average of
at most the first 2 returned nightly prices. -/
theorem budget_estimate_section (s : Session) (q : ParsedQuery) :
    (budgetLines s q ≠ [] ↔
      (fetchedFlights s q ≠ [] ∧ fetchedHotels s q ≠ [])) ∧
    (fetchedFlights s q ≠ [] → fetchedHotels s q ≠ [] →
      budgetLines s q =
        ["BUDGET ESTIMATE (" ++ pytitle q.budget_level ++ "):",
         "Round-trip Flights: ₹" ++
           fmtC0 (2 * ((((fetchedFlights s q).take 2).map Flight.price).sum /
             ((min 2 (fetchedFlights s q).length : Nat) : Rat))),
         "Hotel per night: ₹" ++
           fmtC0 ((((fetchedHotels s q).take 2).map Hotel.price_per_night).sum /
             ((min 2 (fetchedHotels s q).length : Nat) : Rat)),
         "Food per day: ₹" ++
           commaInt (pyint (rMul 1500 (budgetMultiplier q.budget_level))),
         "Transport per day: ₹" ++
           commaInt (pyint (rMul 800 (budgetMultiplier q.budget_level)))]) := by
  have e1 : rMul (avgFlight (fetchedFlights s q)) 2 =
      2 * ((((fetchedFlights s q).take 2).map Flight.price).sum /
        ((min 2 (fetchedFlights s q).length : Nat) : Rat)) := by
    rw [rMul_eq, avgFlight_eq, mul_comm]
  have e2 := avgHotel_eq (fetchedHotels s q)
  constructor
  · rw [budgetLines]
    by_cases hf : fetchedFlights s q = []
    · simp [hf]
    · by_cases hh : fetchedHotels s q = []
      · simp [hf, hh]
      · simp [hf, hh]
  · intro hf hh
    rw [budgetLines]
    simp only [List.isEmpty_iff, hf, hh, or_self, if_false, e1, e2]
    simp [hf, hh]

/-- C4 witness: on a store with one flight (₹4000) and one hotel
(₹3200), the budget section is present with the claimed figures. -/
theorem budget_estimate_section_witness :
    budgetLines sessW qDG =
      ["BUDGET ESTIMATE (" ++ pytitle qDG.budget_level ++ "):",
       "Round-trip Flights: ₹" ++
         fmtC0 (2 * ((((fetchedFlights sessW qDG).take 2).map Flight.price).sum /
           ((min 2 (fetchedFlights sessW qDG).length : Nat) : Rat))),
       "Hotel per night: ₹" ++
         fmtC0 ((((fetchedHotels sessW qDG).take 2).map Hotel.price_per_night).sum /
           ((min 2 (fetchedHotels sessW qDG).length : Nat) : Rat)),
       "Food per day: ₹" ++
         commaInt (pyint (rMul 1500 (budgetMultiplier qDG.budget_level))),
       "Transport per day: ₹" ++
         commaInt (pyint (rMul 800 (budgetMultiplier qDG.budget_level)))] :=
  (budget_estimate_section sessW qDG).2 (by decide) (by decide)


/-- C6: when the underlying store raises a query error, each of the
three query operations returns `[]` rather than propagating an
exception; the aggregator renders an empty hotel result as the explicit
`No hotels found in {destination}` section and an empty flight result as
`No direct flights found for {origin} → {destination}`; and (absent an
injected non-database fault) the aggregation body still returns a report
string for every input. -/
theorem empty_result_error_handling (s : Session) (q : ParsedQuery)
    (src dst city : String) (mp mp2 : Option Rat) (mnS : Int) (mnR : Rat)
    (l1 l2 l3 : Nat) :
    (s.queryFault = true →
      get_flights s src dst mp l1 = [] ∧
      get_hotels s city mnS mp2 l2 = [] ∧
      get_places s city mnR l3 = []) ∧
    (fetchedHotels s q = [] →
      hotelLines s q = ["No hotels found in " ++ q.to_city ++ "\n"]) ∧
    (fetchedFlights s q = [] →
      flightLines s q =
        ["No direct flights found for " ++ q.from_city ++ " → " ++
          q.to_city ++ "\n"]) ∧
    (s.fault = Option.none →
      ∀ qs : String, ∃ rep, searchBody s qs = .ok rep) := by
  refine ⟨?_, ?_, ?_, ?_⟩
  · intro h
    cases ha : s.alive <;>
      exact ⟨by simp [get_flights, get_flightsSt, execQuery, h, ha],
        by simp [get_hotels, execQuery, h, ha],
        by simp [get_places, execQuery, h, ha]⟩
  · intro h
    simp [hotelLines, h]
  · intro h
    simp [flightLines, h]
  · intro hf qs
    cases hq : parseQuery qs with
    | none =>
      exact ⟨"Invalid format. Use: from_city|to_city|budget_level|interests",
        by simp [searchBody, hq]⟩
    | some pq =>
      exact ⟨String.intercalate "\n" (reportLines s pq),
        by simp [searchBody, hq, hf]⟩

/-- C6 witness: a faulting store yields empty query results, the
not-found section texts, and a completed report. -/
theorem empty_result_error_handling_witness :
    get_flights faultSession "Delhi" "Goa" Option.none 5 = [] ∧
    hotelLines faultSession qDG = ["No hotels found in " ++ qDG.to_city ++ "\n"] ∧
    flightLines faultSession qDG =
      ["No direct flights found for " ++ qDG.from_city ++ " → " ++
        qDG.to_city ++ "\n"] ∧
    ∃ rep, searchBody faultSession "Delhi|Goa|moderate" = .ok rep :=
  ⟨((empty_result_error_handling faultSession qDG "Delhi" "Goa" "Goa"
      Option.none Option.none 3 (mkRat 7 2) 5 5 15).1 rfl).1,
   (empty_result_error_handling faultSession qDG "Delhi" "Goa" "Goa"
      Option.none Option.none 3 (mkRat 7 2) 5 5 15).2.1 (by decide),
   (empty_result_error_handling faultSession qDG "Delhi" "Goa" "Goa"
      Option.none Option.none 3 (mkRat 7 2) 5 5 15).2.2.1 (by decide),
   (empty_result_error_handling faultSession qDG "Delhi" "Goa" "Goa"
      Option.none Option.none 3 (mkRat 7 2) 5 5 15).2.2.2 rfl "Delhi|Goa|moderate"⟩

/-- C7 (amended): flights returned by `get_flights` are sorted by
non-decreasing price (ties possible — SQL `ORDER BY price ASC` is not
strict) and capped at the limit; hotels are sorted by star rating
descending, then nightly price ascending, capped at the limit; places
are sorted by rating descending. -/
theorem query_result_ordering (s : Session) (src dst city : String)
    (mp mp2 : Option Rat) (mnS : Int) (mnR : Rat) (l1 l2 l3 : Nat) :
    (get_flights s src dst mp l1).Pairwise (fun a b => a.price ≤ b.price) ∧
    (get_flights s src dst mp l1).length ≤ l1 ∧
    (get_hotels s city mnS mp2 l2).Pairwise
      (fun a b => b.stars < a.stars ∨
        (a.stars = b.stars ∧ a.price_per_night ≤ b.price_per_night)) ∧
    (get_hotels s city mnS mp2 l2).length ≤ l2 ∧
    (get_places s city mnR l3).Pairwise (fun a b => b.rating ≤ a.rating) := by
  refine ⟨?_, ?_, ?_, ?_, ?_⟩
  · rcases get_flights_cases s src dst mp l1 with h | h <;> rw [h]
    · exact List.Pairwise.nil
    · exact flightQuery_sorted s.store src dst mp l1
  · rcases get_flights_cases s src dst mp l1 with h | h <;> rw [h]
    · simp
    · rw [flightQuery, List.length_take]
      exact min_le_left _ _
  · rcases get_hotels_cases s city mnS mp2 l2 with h | h <;> rw [h]
    · exact List.Pairwise.nil
    · exact hotelQuery_sorted s.store city mnS mp2 l2
  · rcases get_hotels_cases s city mnS mp2 l2 with h | h <;> rw [h]
    · simp
    · rw [hotelQuery, List.length_take]
      exact min_le_left _ _
  · rcases get_places_cases s city mnR l3 with h | h <;> rw [h]
    · exact List.Pairwise.nil
    · exact placeQuery_sorted s.store city mnR l3


/-- C7 counterexample: with two same-route flights both priced ₹4500,
`get_flights` returns both, so the result is NOT sorted strictly
ascending by price — `ORDER BY price ASC` admits ties. -/
theorem flights_not_strictly_ascending :
    (get_flights tieSession "Delhi" "Goa" Option.none 10).map Flight.price =
      [4500, 4500] ∧
    ¬ (get_flights tieSession "Delhi" "Goa" Option.none 10).Pairwise
        (fun a b => a.price < b.price) := by
  refine ⟨by decide, by decide⟩

/-- C1 counterexample: the tenacity decorator on `plan_trip` never
retries — the `except ResourceExhausted` clause inside the body catches
the exception and returns a string, so even when the backend signals
quota exhaustion on every attempt only ONE backend call is made, not the
configured 2; and the returned message is not a fixed string — it embeds
the first 200 characters of the exception text. -/
theorem rate_limit_retry_cex :
    (planTrip (fun _ => .resourceExhausted "429 quota exceeded")).2 = 1 ∧
    ¬ ((planTrip (fun _ => .resourceExhausted "429 quota exceeded")).2 = 2) ∧
    rateLimitMessage "quota A" ≠ rateLimitMessage "quota B" := by
  refine ⟨rfl, by decide, by decide⟩

/-- C1 (amended): when the backend signals quota exhaustion on the first
attempt, `plan_trip` returns the rate-limit template (with the first 200
characters of the error appended) to its caller without raising, after
exactly one backend call — the retry decorator
(`stop_after_attempt(2)`, wait 30–120s) never fires because the
exception is caught inside the wrapped body. -/
theorem rate_limit_first_attempt (outcomes : Nat → ModelOutcome) (e : String)
    (h : outcomes 0 = .resourceExhausted e) :
    planTrip outcomes = (.ok (rateLimitMessage e), 1) := by
  have hred : planTrip outcomes = (.ok (planTripBody (outcomes 0)), 1) := rfl
  rw [hred, h]
  rfl

/-- C1 witness: a backend that always reports quota exhaustion. -/
theorem rate_limit_first_attempt_witness :
    planTrip (fun _ => .resourceExhausted "quota") =
      (.ok (rateLimitMessage "quota"), 1) :=
  rate_limit_first_attempt (fun _ => .resourceExhausted "quota") "quota" rfl

/-- C5 counterexample: on a severed connection, `get_flights` performs
no liveness check and no reconnect — the psycopg2 error is swallowed and
the call returns `[]` with the session unchanged (zero `_connect`
calls), even though the store holds a matching flight; no
`ConnectionError` reaches the caller. -/
theorem reconnect_cex :
    get_flightsSt severedSession "Delhi" "Goa" Option.none 10 =
      ([], severedSession) ∧
    ¬ ((get_flightsSt severedSession "Delhi" "Goa" Option.none 10).2.connectCount =
        severedSession.connectCount + 1) ∧
    ¬ (get_flights severedSession "Delhi" "Goa" Option.none 10 = [flightDG]) := by
  refine ⟨by decide, by decide, by decide⟩

/-- C5 (amended): a Query Layer call on a severed connection does not
probe liveness and does not reconnect: the driver error raised by the
dead connection is caught inside `get_flights`, the call returns the
empty list, and the session (including its `_connect` count) is
unchanged; no `ConnectionError` is raised to the caller. -/
theorem severed_connection_behaviour (s : Session) (src dst : String)
    (mp : Option Rat) (lim : Nat) (h : s.alive = false) :
    get_flightsSt s src dst mp lim = ([], s) := by
  simp [get_flightsSt, execQuery, h]

/-- C5 witness: the severed session yields an empty result and an
unchanged session. -/
theorem severed_connection_behaviour_witness :
    get_flightsSt severedSession "Pune" "Agra" Option.none 5 =
      ([], severedSession) :=
  severed_connection_behaviour severedSession "Pune" "Agra" Option.none 5 rfl

/-- C8 counterexample: `insert_hotel` stores the amenity list JSON
encoded, but the aggregator splits the stored text on raw commas without
decoding, so a hotel seeded from the list `["WiFi", "Pool"]` displays
the amenity strings `"[\"WiFi\""` and `" \"Pool\"]"` — NOT the same
strings as the comma-delimited form `"WiFi,Pool"`. -/
theorem amenities_not_normalized :
    (insert_hotel ⟨[], [], []⟩
        ⟨"HJ1", "Taj Resort", "Goa", 5, 8000, ["WiFi", "Pool"]⟩).hotels =
      [hotelJsonStored] ∧
    displayedAmenities hotelPlainStored = ["WiFi", "Pool"] ∧
    ¬ (displayedAmenities hotelJsonStored =
        displayedAmenities hotelPlainStored) := by
  refine ⟨by decide, by decide, by decide⟩

/-- C8 (amended): `insert_hotel` stores amenities as a `json.dumps`
encoded list; the aggregator does not decode that encoding but splits
the raw stored string on commas (empty text giving no amenities) and
displays at most the first 5 — so JSON-stored and comma-delimited
amenity values are NOT normalized to a common representation. -/
theorem amenities_storage_and_display (st : Store) (hd : HotelData)
    (h : st.hotels.any (fun hh => hh.hotel_id = hd.hotel_id) = false) :
    (insert_hotel st hd).hotels =
      st.hotels ++ [⟨hd.hotel_id, hd.name, hd.city, hd.stars,
        hd.price_per_night, jsonDumpsStrList hd.amenities⟩] ∧
    ∀ hh : Hotel, (displayedAmenities hh).length ≤ 5 ∧
      displayedAmenities hh =
        (if hh.amenities = "" then [] else pysplit ',' hh.amenities).take 5 := by
  refine ⟨by simp [insert_hotel, h], fun hh => ⟨?_, rfl⟩⟩
  rw [displayedAmenities, List.length_take]
  exact min_le_left _ _

/-- C8 witness: inserting a fresh hotel appends the JSON-encoded row. -/
theorem amenities_storage_and_display_witness :
    (insert_hotel ⟨[], [], []⟩ ⟨"HW9", "Inn", "Pune", 3, 2500, ["Gym"]⟩).hotels =
      [⟨"HW9", "Inn", "Pune", 3, 2500, jsonDumpsStrList ["Gym"]⟩] :=
  (amenities_storage_and_display ⟨[], [], []⟩
    ⟨"HW9", "Inn", "Pune", 3, 2500, ["Gym"]⟩ (by decide)).1

/-- C9: `get_alternative_routes` returns all routes departing the origin
(to any destination) followed by all routes arriving at the destination
from any origin other than the given origin, each as `{from, to,
count}`, truncated to at most 10 entries; when the index has no routes
from the origin and none into the destination it returns `[]` (not an
error).  The route index is a value the function only reads — the model
is a pure function of it. -/
theorem route_advisor (routes : RouteIndex) (f t : String) :
    get_alternative_routes routes f t = altRoutesClaim routes f t ∧
    (routes.lookup f = Option.none →
      (∀ p ∈ routes, ∀ d ∈ p.2, ¬ (d.dest = t)) →
      get_alternative_routes routes f t = []) := by
  have hfrom : (match routes.lookup f with
      | some dests =>
        dests.foldl (fun acc (d : RouteDest) =>
          acc ++ [(⟨f, d.dest, d.count⟩ : AltRoute)]) []
      | Option.none => ([] : List AltRoute)) =
      (match routes.lookup f with
      | some dests =>
        dests.map (fun (d : RouteDest) => (⟨f, d.dest, d.count⟩ : AltRoute))
      | Option.none => ([] : List AltRoute)) := by
    cases routes.lookup f with
    | none => rfl
    | some dests =>
      simpa using foldl_append_map
        (fun (d : RouteDest) => (⟨f, d.dest, d.count⟩ : AltRoute)) dests []
  have heq : get_alternative_routes routes f t = altRoutesClaim routes f t := by
    rw [get_alternative_routes, altRoutesClaim, foldl_routes, hfrom]
  refine ⟨heq, fun h1 h2 => ?_⟩
  rw [heq, altRoutesClaim]
  have hflat : routes.flatMap (fun p =>
      (p.2.filter (fun d => decide (d.dest = t ∧ p.1 ≠ f))).map
        (fun d => (⟨p.1, t, d.count⟩ : AltRoute))) = [] := by
    rw [List.flatMap_eq_nil_iff]
    intro p hp
    rw [List.map_eq_nil_iff, List.filter_eq_nil_iff]
    intro d hd
    simp only [decide_eq_true_eq, not_and]
    intro hdt
    exact absurd hdt (h2 p hp d hd)
  simp only [h1, hflat]
  rfl

/-- C9 witness: an index with no routes from Pune and none into Agra
gives an empty alternatives list. -/
theorem route_advisor_witness :
    get_alternative_routes routesW "Pune" "Agra" = [] :=
  (route_advisor routesW "Pune" "Agra").2 (by decide) (by decide)

end Travel
